import Mathlib

/-!
Verification of the generic-datapath reference-counting and delayed-deactivation
protocol of src/xdplwf/generic.c (XDP for Windows, generic LWF layer).

The slot state, the interface object state, and every operation below are
shallow embeddings of the corresponding C functions.  Kernel primitives
(events, the interrupt-time clock, thread creation) are modelled as explicit
state fields and parameters; FRE_ASSERT failures are modelled by returning
none.
-/

namespace XdpLwfGeneric

/-- Slot state for one direction (XDP_LWF_DATAPATH_BYPASS): reference count,
inserted flag, ready event, and last-dereference timestamp in 100ns
interrupt-time units. -/
structure DatapathState where
  referenceCount : Int
  inserted : Bool
  readyEvent : Bool
  lastDereferenceTimestamp : Nat
  deriving DecidableEq, Repr

/-- Interface object state relevant to the object reference count:
XDP_LWF_GENERIC.ReferenceCount and CleanupEvent. -/
structure ObjState where
  referenceCount : Int
  cleanupEvent : Bool
  deriving DecidableEq, Repr

/-- Modelled from the spec: XdpIncrementReferenceCount (an xdprtl helper not in
this slice) increments the object reference count; XdpGenericReference
(generic.c:40) wraps it. -/
def xdpGenericReference (o : ObjState) : ObjState :=
  { o with referenceCount := o.referenceCount + 1 }

/-- Modelled from the spec: XdpDecrementReferenceCount (an xdprtl helper not in
this slice) decrements the object reference count and reports whether it
reached zero; XdpGenericDereference (generic.c:49) sets CleanupEvent exactly
when that report is true. -/
def xdpGenericDereference (o : ObjState) : ObjState :=
  if o.referenceCount - 1 = 0 then
    { referenceCount := o.referenceCount - 1, cleanupEvent := true }
  else
    { o with referenceCount := o.referenceCount - 1 }

/-- Result of XdpGenericReferenceDatapath: the updated slot, the updated object
state, and the NeedRestart output parameter. -/
structure RefResult where
  dp : DatapathState
  obj : ObjState
  needRestart : Bool
  deriving DecidableEq, Repr

/-- XdpGenericReferenceDatapath (generic.c:229).  The
FRE_ASSERT(ReferenceCount >= 0) is modelled as returning none on violation. -/
def xdpGenericReferenceDatapath (dp : DatapathState) (o : ObjState) :
    Option RefResult :=
  if 0 ≤ dp.referenceCount then
    if dp.referenceCount = 0 then
      some { dp := { dp with referenceCount := dp.referenceCount + 1 },
             obj := xdpGenericReference o, needRestart := true }
    else
      some { dp := { dp with referenceCount := dp.referenceCount + 1 },
             obj := o, needRestart := false }
  else
    none

/-- Result of XdpGenericDereferenceDatapath: the updated slot and object state,
the NeedRestart output parameter, and whether the delay worker was spawned
(in which case the decrement is transferred to the worker). -/
structure DerefResult where
  dp : DatapathState
  obj : ObjState
  needRestart : Bool
  spawned : Bool
  deriving DecidableEq, Repr

/-- XdpGenericDereferenceDatapath (generic.c:245).  The KeQueryInterruptTime
read is the parameter now; PsCreateSystemThread success is the parameter
workerOk.  The FRE_ASSERT(ReferenceCount > 0) is modelled as returning none
on violation. -/
def xdpGenericDereferenceDatapath (dp : DatapathState) (o : ObjState)
    (now : Nat) (workerOk : Bool) : Option DerefResult :=
  let dp1 := { dp with lastDereferenceTimestamp := now }
  if dp1.referenceCount = 1 ∧ workerOk = true then
    some { dp := dp1, obj := o, needRestart := false, spawned := true }
  else
    let dp2 := if dp1.referenceCount = 1 then { dp1 with readyEvent := false } else dp1
    let needRestart := decide (dp1.referenceCount = 1)
    if 0 < dp2.referenceCount then
      some { dp := { dp2 with referenceCount := dp2.referenceCount - 1 },
             obj := if needRestart then xdpGenericDereference o else o,
             needRestart := needRestart,
             spawned := false }
    else
      none

/-- Result of the finalize phase of the delay-deactivation worker: the updated
slot and object state and whether a restart was requested. -/
structure FinalizeResult where
  dp : DatapathState
  obj : ObjState
  restartRequested : Bool
  deriving DecidableEq, Repr

/-- Finalize phase of XdpGenericDelayDereferenceDatapath (generic.c:209-224):
assert ReferenceCount > 0, decrement it, and when the count reaches zero clear
ReadyEvent, request a restart and drop the interface object reference. -/
def xdpGenericDelayDereferenceFinalize (dp : DatapathState) (o : ObjState) :
    Option FinalizeResult :=
  if 0 < dp.referenceCount then
    if dp.referenceCount - 1 = 0 then
      some { dp := { dp with referenceCount := dp.referenceCount - 1, readyEvent := false },
             obj := xdpGenericDereference o, restartRequested := true }
    else
      some { dp := { dp with referenceCount := dp.referenceCount - 1 },
             obj := o, restartRequested := false }
  else
    none

/-- Sample slot used to instantiate witnesses: given reference count, inserted
and ready flags false and true, timestamp zero. -/
def dpSample (rc : Int) : DatapathState :=
  { referenceCount := rc, inserted := false, readyEvent := true,
    lastDereferenceTimestamp := 0 }

/-- Sample interface object used to instantiate witnesses. -/
def objSample (rc : Int) : ObjState :=
  { referenceCount := rc, cleanupEvent := false }

/-- C2: the datapath reference operation increments the slot reference count by
exactly one, and reports that a restart is required (and increments the
interface object reference count) if and only if the pre-increment count was
zero. -/
theorem c2_reference_datapath (dp : DatapathState) (o : ObjState)
    (h : 0 ≤ dp.referenceCount) :
    ∃ r, xdpGenericReferenceDatapath dp o = some r ∧
      r.dp.referenceCount = dp.referenceCount + 1 ∧
      (r.needRestart = true ↔ dp.referenceCount = 0) ∧
      (dp.referenceCount = 0 → r.obj.referenceCount = o.referenceCount + 1) ∧
      (dp.referenceCount ≠ 0 → r.obj = o) := by
  unfold xdpGenericReferenceDatapath
  rw [if_pos h]
  by_cases h0 : dp.referenceCount = 0
  · refine ⟨_, by rw [if_pos h0], rfl, by simp [h0], fun _ => rfl, fun hc => absurd h0 hc⟩
  · refine ⟨_, by rw [if_neg h0], rfl, by simp [h0], fun hc => absurd hc h0, fun _ => rfl⟩

/-- Witness for c2_reference_datapath at a slot with reference count zero. -/
theorem c2_reference_datapath_witness :
    0 ≤ (dpSample 0).referenceCount ∧
    ∃ r, xdpGenericReferenceDatapath (dpSample 0) (objSample 1) = some r ∧
      r.dp.referenceCount = (dpSample 0).referenceCount + 1 ∧
      (r.needRestart = true ↔ (dpSample 0).referenceCount = 0) ∧
      ((dpSample 0).referenceCount = 0 →
        r.obj.referenceCount = (objSample 1).referenceCount + 1) ∧
      ((dpSample 0).referenceCount ≠ 0 → r.obj = objSample 1) :=
  ⟨by decide, c2_reference_datapath (dpSample 0) (objSample 1) (by decide)⟩

/-- Characterization of xdpGenericDereferenceDatapath by cases on the starting
reference count and worker-creation outcome. -/
theorem dereferenceDatapath_cases (dp : DatapathState) (o : ObjState)
    (now : Nat) (workerOk : Bool) :
    xdpGenericDereferenceDatapath dp o now workerOk =
      if dp.referenceCount = 1 ∧ workerOk = true then
        some { dp := { dp with lastDereferenceTimestamp := now }, obj := o,
               needRestart := false, spawned := true }
      else if 0 < dp.referenceCount then
        some { dp :=
                 { dp with
                   referenceCount := dp.referenceCount - 1,
                   readyEvent := if dp.referenceCount = 1 then false else dp.readyEvent,
                   lastDereferenceTimestamp := now },
               obj := if dp.referenceCount = 1 then xdpGenericDereference o else o,
               needRestart := decide (dp.referenceCount = 1), spawned := false }
      else none := by
  unfold xdpGenericDereferenceDatapath
  by_cases h1 : dp.referenceCount = 1 <;> cases workerOk <;> simp [h1]

/-- C3: every datapath dereference records the last-dereference timestamp from
the interrupt-time clock; from reference count one with worker creation
succeeding, the call returns with the count unchanged (the decrement is
transferred to the worker); from reference count one with worker creation
failing, it clears the ready event, reports restart required, decrements the
count to zero, and drops the interface object reference. -/
theorem c3_dereference_datapath (dp : DatapathState) (o : ObjState)
    (now : Nat) (workerOk : Bool) :
    (∀ r, xdpGenericDereferenceDatapath dp o now workerOk = some r →
        r.dp.lastDereferenceTimestamp = now) ∧
    (dp.referenceCount = 1 → workerOk = true →
      ∃ r, xdpGenericDereferenceDatapath dp o now workerOk = some r ∧
        r.spawned = true ∧ r.dp.referenceCount = dp.referenceCount ∧
        r.obj = o ∧ r.needRestart = false) ∧
    (dp.referenceCount = 1 → workerOk = false →
      ∃ r, xdpGenericDereferenceDatapath dp o now workerOk = some r ∧
        r.spawned = false ∧ r.dp.readyEvent = false ∧ r.needRestart = true ∧
        r.dp.referenceCount = 0 ∧
        r.obj.referenceCount = o.referenceCount - 1) := by
  refine ⟨?_, ?_, ?_⟩
  · intro r hr
    rw [dereferenceDatapath_cases] at hr
    by_cases h1 : dp.referenceCount = 1 ∧ workerOk = true
    · rw [if_pos h1] at hr
      cases hr
      rfl
    · rw [if_neg h1] at hr
      by_cases h2 : 0 < dp.referenceCount
      · rw [if_pos h2] at hr
        cases hr
        rfl
      · rw [if_neg h2] at hr
        cases hr
  · intro h1 hw
    refine ⟨{ dp := { dp with lastDereferenceTimestamp := now }, obj := o,
              needRestart := false, spawned := true }, ?_, rfl, rfl, rfl, rfl⟩
    rw [dereferenceDatapath_cases, if_pos ⟨h1, hw⟩]
  · intro h1 hw
    rw [dereferenceDatapath_cases]
    have hcond : ¬(dp.referenceCount = 1 ∧ workerOk = true) := by simp [hw]
    rw [if_neg hcond, if_pos (by omega : (0 : Int) < dp.referenceCount)]
    refine ⟨_, rfl, rfl, by simp [h1], by simp [h1], by simp [h1], ?_⟩
    simp [h1, xdpGenericDereference]
    split <;> simp

/-- Witness for c3_dereference_datapath at reference count one with worker
creation failing. -/
theorem c3_dereference_datapath_witness :
    (∀ r, xdpGenericDereferenceDatapath (dpSample 1) (objSample 1) 5 false = some r →
        r.dp.lastDereferenceTimestamp = 5) ∧
    ((dpSample 1).referenceCount = 1 → false = true →
      ∃ r, xdpGenericDereferenceDatapath (dpSample 1) (objSample 1) 5 false = some r ∧
        r.spawned = true ∧ r.dp.referenceCount = (dpSample 1).referenceCount ∧
        r.obj = objSample 1 ∧ r.needRestart = false) ∧
    ((dpSample 1).referenceCount = 1 → false = false →
      ∃ r, xdpGenericDereferenceDatapath (dpSample 1) (objSample 1) 5 false = some r ∧
        r.spawned = false ∧ r.dp.readyEvent = false ∧ r.needRestart = true ∧
        r.dp.referenceCount = 0 ∧
        r.obj.referenceCount = (objSample 1).referenceCount - 1) :=
  c3_dereference_datapath (dpSample 1) (objSample 1) 5 false

/-- C4: the worker finalize phase asserts the slot reference count is positive
(none on violation) and decrements it; exactly when the count reaches zero it
clears the ready event, requests a restart, and drops the interface object
reference. -/
theorem c4_worker_finalize (dp : DatapathState) (o : ObjState) :
    (dp.referenceCount ≤ 0 → xdpGenericDelayDereferenceFinalize dp o = none) ∧
    (0 < dp.referenceCount →
      ∃ r, xdpGenericDelayDereferenceFinalize dp o = some r ∧
        r.dp.referenceCount = dp.referenceCount - 1 ∧
        (dp.referenceCount = 1 →
          r.dp.readyEvent = false ∧ r.restartRequested = true ∧
          r.obj.referenceCount = o.referenceCount - 1) ∧
        (dp.referenceCount ≠ 1 →
          r.dp.readyEvent = dp.readyEvent ∧ r.restartRequested = false ∧
          r.obj = o)) := by
  constructor
  · intro h
    unfold xdpGenericDelayDereferenceFinalize
    rw [if_neg (by omega)]
  · intro h
    unfold xdpGenericDelayDereferenceFinalize
    rw [if_pos h]
    by_cases h1 : dp.referenceCount = 1
    · rw [if_pos (by omega)]
      refine ⟨_, rfl, rfl, fun _ => ⟨rfl, rfl, ?_⟩, fun hc => absurd h1 hc⟩
      simp [xdpGenericDereference]
      split <;> simp
    · rw [if_neg (by omega)]
      exact ⟨_, rfl, rfl, fun hc => absurd hc h1, fun _ => ⟨rfl, rfl, rfl⟩⟩

/-- Witness for c4_worker_finalize at reference count one. -/
theorem c4_worker_finalize_witness :
    ((dpSample 1).referenceCount ≤ 0 →
      xdpGenericDelayDereferenceFinalize (dpSample 1) (objSample 1) = none) ∧
    (0 < (dpSample 1).referenceCount →
      ∃ r, xdpGenericDelayDereferenceFinalize (dpSample 1) (objSample 1) = some r ∧
        r.dp.referenceCount = (dpSample 1).referenceCount - 1 ∧
        ((dpSample 1).referenceCount = 1 →
          r.dp.readyEvent = false ∧ r.restartRequested = true ∧
          r.obj.referenceCount = (objSample 1).referenceCount - 1) ∧
        ((dpSample 1).referenceCount ≠ 1 →
          r.dp.readyEvent = (dpSample 1).readyEvent ∧ r.restartRequested = false ∧
          r.obj = objSample 1)) :=
  c4_worker_finalize (dpSample 1) (objSample 1)

/-- C6 counterexample: a dereference from reference count two performs its
decrement synchronously (no worker spawned) and leaves the count at one, not
zero, refuting the claim for arbitrary positive starting counts. -/
theorem c6_counterexample :
    xdpGenericDereferenceDatapath (dpSample 2) (objSample 2) 5 true =
      some { dp := { referenceCount := 1, inserted := false, readyEvent := true,
                     lastDereferenceTimestamp := 5 },
             obj := objSample 2, needRestart := false, spawned := false } ∧
    (1 : Int) ≠ 0 := by
  constructor
  · rfl
  · decide

/-- C6 amended: once the decrement belonging to a dereference happens, either
synchronously in the dereference call or later in the worker finalize phase,
the slot reference count drops by exactly one, and it reaches zero if and only
if the count at decrement time was one (so a last dereference from count one
does drop the count to zero). -/
theorem c6_decrement_reaches_zero (dp : DatapathState) (o : ObjState)
    (now : Nat) (workerOk : Bool) :
    (∀ r, xdpGenericDereferenceDatapath dp o now workerOk = some r →
        r.spawned = false →
        r.dp.referenceCount = dp.referenceCount - 1 ∧
        (r.dp.referenceCount = 0 ↔ dp.referenceCount = 1)) ∧
    (∀ r, xdpGenericDelayDereferenceFinalize dp o = some r →
        r.dp.referenceCount = dp.referenceCount - 1 ∧
        (r.dp.referenceCount = 0 ↔ dp.referenceCount = 1)) := by
  constructor
  · intro r hr hs
    rw [dereferenceDatapath_cases] at hr
    by_cases h1 : dp.referenceCount = 1 ∧ workerOk = true
    · rw [if_pos h1] at hr
      cases hr
      cases hs
    · rw [if_neg h1] at hr
      by_cases h2 : 0 < dp.referenceCount
      · rw [if_pos h2] at hr
        cases hr
        constructor
        · rfl
        · simp
          omega
      · rw [if_neg h2] at hr
        cases hr
  · intro r hr
    unfold xdpGenericDelayDereferenceFinalize at hr
    by_cases h2 : 0 < dp.referenceCount
    · rw [if_pos h2] at hr
      by_cases h1 : dp.referenceCount - 1 = 0
      · rw [if_pos h1] at hr
        cases hr
        constructor
        · rfl
        · simp
          omega
      · rw [if_neg h1] at hr
        cases hr
        constructor
        · rfl
        · simp
          omega
    · rw [if_neg h2] at hr
      cases hr

/-- Witness for c6_decrement_reaches_zero at reference count one with worker
creation failing (the synchronous decrement path). -/
theorem c6_decrement_reaches_zero_witness :
    (∀ r, xdpGenericDereferenceDatapath (dpSample 1) (objSample 1) 5 false = some r →
        r.spawned = false →
        r.dp.referenceCount = (dpSample 1).referenceCount - 1 ∧
        (r.dp.referenceCount = 0 ↔ (dpSample 1).referenceCount = 1)) ∧
    (∀ r, xdpGenericDelayDereferenceFinalize (dpSample 1) (objSample 1) = some r →
        r.dp.referenceCount = (dpSample 1).referenceCount - 1 ∧
        (r.dp.referenceCount = 0 ↔ (dpSample 1).referenceCount = 1)) :=
  c6_decrement_reaches_zero (dpSample 1) (objSample 1) 5 false

/-- RTL_SEC_TO_100NANOSEC: seconds converted to 100-nanosecond units. -/
def RTL_SEC_TO_100NANOSEC (s : Nat) : Nat := s * 10000000

/-- Remaining wait computed at the top of each worker loop iteration
(generic.c:184-189): the debounce interval minus the previously observed time
since the last dereference, clamped at zero. -/
def delayIntervalFor (timeoutSec tsld : Nat) : Nat :=
  if RTL_SEC_TO_100NANOSEC timeoutSec < tsld then 0
  else RTL_SEC_TO_100NANOSEC timeoutSec - tsld

/-- One wake of the worker loop as observed after reacquiring the lock:
whether the wait returned STATUS_SUCCESS (the interface-removed event fired),
the interrupt-time clock reading, and the slot's, possibly refreshed,
last-dereference timestamp. -/
structure WakeObs where
  signaled : Bool
  currentTimestamp : Nat
  lastDerefTimestamp : Nat
  deriving DecidableEq, Repr

/-- Exit information of the worker wait loop: the time-since-last-dereference
value carried into the final iteration, the recomputed value at exit, and
whether the removal signal fired. -/
structure LoopExit where
  prevTimeSince : Nat
  timeSince : Nat
  signaled : Bool
  deriving DecidableEq, Repr

/-- The wait loop of XdpGenericDelayDereferenceDatapath (generic.c:183-207),
one recursive step per wake.  Returns none when the schedule of wakes is
exhausted without exiting, or when the FRE_ASSERT on clock monotonicity
(generic.c:199) fails. -/
def workerWaitLoop (timeoutSec : Nat) (tsld : Nat) : List WakeObs → Option LoopExit
  | [] => none
  | ob :: rest =>
    if ob.currentTimestamp < ob.lastDerefTimestamp then none
    else
      let t := ob.currentTimestamp - ob.lastDerefTimestamp
      if delayIntervalFor timeoutSec tsld ≤ t ∨ ob.signaled = true then
        some { prevTimeSince := tsld, timeSince := t, signaled := ob.signaled }
      else
        workerWaitLoop timeoutSec t rest

/-- Environment constraints on a wake schedule: the last-dereference timestamp
never exceeds the monotone interrupt-time clock and never moves backwards, the
clock never moves backwards, and a wait not cut short by the removal signal
lasted at least the computed wait interval. -/
def validWakes (timeoutSec : Nat) : Nat → Nat → Nat → List WakeObs → Bool
  | _, _, _, [] => true
  | tsld, prevTime, prevLdt, ob :: rest =>
    decide (prevLdt ≤ ob.lastDerefTimestamp) &&
    decide (ob.lastDerefTimestamp ≤ ob.currentTimestamp) &&
    decide (prevTime ≤ ob.currentTimestamp) &&
    (ob.signaled ||
      decide (prevTime + delayIntervalFor timeoutSec tsld ≤ ob.currentTimestamp)) &&
    validWakes timeoutSec (ob.currentTimestamp - ob.lastDerefTimestamp)
      ob.currentTimestamp ob.lastDerefTimestamp rest

/-- C1 counterexample: with a one-second debounce, a timestamp refresh during
the first wait makes the worker exit its wait loop at the second wake even
though only 0.6 seconds elapsed since the last dereference and no removal
signal fired; the schedule satisfies all clock and wait-duration constraints. -/
theorem c1_counterexample :
    validWakes 1 0 0 0
      [{ signaled := false, currentTimestamp := 10000000, lastDerefTimestamp := 6000000 },
       { signaled := false, currentTimestamp := 16000000, lastDerefTimestamp := 10000000 }]
      = true ∧
    workerWaitLoop 1 0
      [{ signaled := false, currentTimestamp := 10000000, lastDerefTimestamp := 6000000 },
       { signaled := false, currentTimestamp := 16000000, lastDerefTimestamp := 10000000 }]
      = some { prevTimeSince := 4000000, timeSince := 6000000, signaled := false } ∧
    6000000 < RTL_SEC_TO_100NANOSEC 1 := by
  refine ⟨by decide, by decide, by decide⟩

/-- C1 amended: at each wake with the clock monotonicity assertion satisfied,
the worker exits the wait loop if and only if the previously observed plus the
newly recomputed time since the last dereference together reach the debounce
interval (equivalently, the recomputed time reaches the remaining wait
computed at the top of the iteration), or the removal signal fired; in every
other case it repeats the loop with the updated time-since value. -/
theorem c1_wait_loop_exit (timeoutSec tsld : Nat) (ob : WakeObs)
    (rest : List WakeObs)
    (hassert : ob.lastDerefTimestamp ≤ ob.currentTimestamp) :
    (RTL_SEC_TO_100NANOSEC timeoutSec ≤
        tsld + (ob.currentTimestamp - ob.lastDerefTimestamp) ∨ ob.signaled = true →
      workerWaitLoop timeoutSec tsld (ob :: rest) =
        some { prevTimeSince := tsld,
               timeSince := ob.currentTimestamp - ob.lastDerefTimestamp,
               signaled := ob.signaled }) ∧
    (¬(RTL_SEC_TO_100NANOSEC timeoutSec ≤
        tsld + (ob.currentTimestamp - ob.lastDerefTimestamp) ∨ ob.signaled = true) →
      workerWaitLoop timeoutSec tsld (ob :: rest) =
        workerWaitLoop timeoutSec (ob.currentTimestamp - ob.lastDerefTimestamp) rest) := by
  have hkey : delayIntervalFor timeoutSec tsld ≤
      ob.currentTimestamp - ob.lastDerefTimestamp ↔
      RTL_SEC_TO_100NANOSEC timeoutSec ≤
        tsld + (ob.currentTimestamp - ob.lastDerefTimestamp) := by
    unfold delayIntervalFor
    split <;> omega
  constructor
  · intro h
    have hcond : delayIntervalFor timeoutSec tsld ≤
        ob.currentTimestamp - ob.lastDerefTimestamp ∨ ob.signaled = true := by
      rcases h with h | h
      · exact Or.inl (hkey.mpr h)
      · exact Or.inr h
    simp only [workerWaitLoop]
    rw [if_neg (by omega), if_pos hcond]
  · intro h
    have hcond : ¬(delayIntervalFor timeoutSec tsld ≤
        ob.currentTimestamp - ob.lastDerefTimestamp ∨ ob.signaled = true) := by
      intro hc
      rcases hc with hc | hc
      · exact h (Or.inl (hkey.mp hc))
      · exact h (Or.inr hc)
    simp only [workerWaitLoop]
    rw [if_neg (by omega), if_neg hcond]

/-- Witness for c1_wait_loop_exit at a wake where the removal signal fired. -/
theorem c1_wait_loop_exit_witness :
    ({ signaled := true, currentTimestamp := 9, lastDerefTimestamp := 4 } :
        WakeObs).lastDerefTimestamp ≤
      ({ signaled := true, currentTimestamp := 9, lastDerefTimestamp := 4 } :
        WakeObs).currentTimestamp ∧
    ((RTL_SEC_TO_100NANOSEC 1 ≤ 0 + (9 - 4) ∨ true = true →
      workerWaitLoop 1 0
        [{ signaled := true, currentTimestamp := 9, lastDerefTimestamp := 4 }] =
        some { prevTimeSince := 0, timeSince := 9 - 4, signaled := true }) ∧
    (¬(RTL_SEC_TO_100NANOSEC 1 ≤ 0 + (9 - 4) ∨ true = true) →
      workerWaitLoop 1 0
        [{ signaled := true, currentTimestamp := 9, lastDerefTimestamp := 4 }] =
        workerWaitLoop 1 (9 - 4) [])) :=
  ⟨by decide,
   c1_wait_loop_exit 1 0
     { signaled := true, currentTimestamp := 9, lastDerefTimestamp := 4 } []
     (by decide)⟩

/-- NDIS_STATUS_SUCCESS. -/
def NDIS_STATUS_SUCCESS : Int := 0

/-- Result of XdpGenericFilterSetOptions: both slots, the returned status, and
the handler-set descriptor (which directions were requested installed)
submitted to NDIS. -/
structure SetOptionsResult where
  rx : DatapathState
  tx : DatapathState
  status : Int
  rxRequested : Bool
  txRequested : Bool
  deriving DecidableEq, Repr

/-- XdpGenericFilterSetOptions (generic.c:288).  The handler-set descriptor is
abstracted to its two direction flags; NdisSetOptionalHandlers is the
parameter submit, mapping the descriptor to the returned status. -/
def xdpGenericFilterSetOptions (rx tx : DatapathState)
    (submit : Bool → Bool → Int) : SetOptionsResult :=
  let rxInserted := decide (0 < rx.referenceCount)
  let txInserted := decide (0 < tx.referenceCount)
  let status := submit rxInserted txInserted
  if status = NDIS_STATUS_SUCCESS then
    { rx := { rx with inserted := rxInserted },
      tx := { tx with inserted := txInserted },
      status := status, rxRequested := rxInserted, txRequested := txInserted }
  else
    { rx := rx, tx := tx, status := status, rxRequested := rxInserted,
      txRequested := txInserted }

/-- C5: the handler-set computation requests each direction installed exactly
when its slot reference count is positive; the returned status is the
submission result; on success both inserted flags are set to the requested
values, and on failure both slots are left unchanged. -/
theorem c5_set_options (rx tx : DatapathState) (submit : Bool → Bool → Int) :
    ∀ r, xdpGenericFilterSetOptions rx tx submit = r →
      (r.rxRequested = true ↔ 0 < rx.referenceCount) ∧
      (r.txRequested = true ↔ 0 < tx.referenceCount) ∧
      r.status = submit r.rxRequested r.txRequested ∧
      (r.status = NDIS_STATUS_SUCCESS →
        r.rx.inserted = r.rxRequested ∧ r.tx.inserted = r.txRequested ∧
        r.rx.referenceCount = rx.referenceCount ∧
        r.tx.referenceCount = tx.referenceCount) ∧
      (r.status ≠ NDIS_STATUS_SUCCESS → r.rx = rx ∧ r.tx = tx) := by
  intro r hr
  subst hr
  unfold xdpGenericFilterSetOptions
  by_cases h : submit (decide (0 < rx.referenceCount))
      (decide (0 < tx.referenceCount)) = NDIS_STATUS_SUCCESS
  · rw [if_pos h]
    refine ⟨by simp, by simp, h ▸ rfl, fun _ => ⟨rfl, rfl, rfl, rfl⟩, fun hc => absurd h hc⟩
  · rw [if_neg h]
    exact ⟨by simp, by simp, rfl, fun hc => absurd hc h, fun _ => ⟨rfl, rfl⟩⟩

/-- Witness for c5_set_options with a referenced RX slot, an unreferenced TX
slot, and a failing submission, instantiated at the concrete result. -/
theorem c5_set_options_witness :
    (({ rx := dpSample 1, tx := dpSample 0, status := 2, rxRequested := true, txRequested := false } : SetOptionsResult).rxRequested = true ↔
      0 < (dpSample 1).referenceCount) ∧
    (({ rx := dpSample 1, tx := dpSample 0, status := 2, rxRequested := true, txRequested := false } : SetOptionsResult).txRequested = true ↔
      0 < (dpSample 0).referenceCount) ∧
    ({ rx := dpSample 1, tx := dpSample 0, status := 2, rxRequested := true, txRequested := false } : SetOptionsResult).status =
      (fun x y => if x = y then (1 : Int) else 2)
        ({ rx := dpSample 1, tx := dpSample 0, status := 2, rxRequested := true, txRequested := false } : SetOptionsResult).rxRequested
        ({ rx := dpSample 1, tx := dpSample 0, status := 2, rxRequested := true, txRequested := false } : SetOptionsResult).txRequested ∧
    (({ rx := dpSample 1, tx := dpSample 0, status := 2, rxRequested := true, txRequested := false } : SetOptionsResult).status = NDIS_STATUS_SUCCESS →
      ({ rx := dpSample 1, tx := dpSample 0, status := 2, rxRequested := true, txRequested := false } : SetOptionsResult).rx.inserted =
        ({ rx := dpSample 1, tx := dpSample 0, status := 2, rxRequested := true, txRequested := false } : SetOptionsResult).rxRequested ∧
      ({ rx := dpSample 1, tx := dpSample 0, status := 2, rxRequested := true, txRequested := false } : SetOptionsResult).tx.inserted =
        ({ rx := dpSample 1, tx := dpSample 0, status := 2, rxRequested := true, txRequested := false } : SetOptionsResult).txRequested ∧
      ({ rx := dpSample 1, tx := dpSample 0, status := 2, rxRequested := true, txRequested := false } : SetOptionsResult).rx.referenceCount =
        (dpSample 1).referenceCount ∧
      ({ rx := dpSample 1, tx := dpSample 0, status := 2, rxRequested := true, txRequested := false } : SetOptionsResult).tx.referenceCount =
        (dpSample 0).referenceCount) ∧
    (({ rx := dpSample 1, tx := dpSample 0, status := 2, rxRequested := true, txRequested := false } : SetOptionsResult).status ≠ NDIS_STATUS_SUCCESS →
      ({ rx := dpSample 1, tx := dpSample 0, status := 2, rxRequested := true, txRequested := false } : SetOptionsResult).rx = dpSample 1 ∧
      ({ rx := dpSample 1, tx := dpSample 0, status := 2, rxRequested := true, txRequested := false } : SetOptionsResult).tx = dpSample 0) :=
  c5_set_options (dpSample 1) (dpSample 0) (fun x y => if x = y then 1 else 2)
    { rx := dpSample 1, tx := dpSample 0, status := 2, rxRequested := true, txRequested := false }
    (by decide)

/-- DELAY_DETACH_DEFAULT_TIMEOUT_SEC (generic.c:9): five minutes. -/
def DELAY_DETACH_DEFAULT_TIMEOUT_SEC : Nat := 5 * 60

/-- XdpGenericRegistryUpdate (generic.c:69).  The previous value of the global
GenericDelayDetachTimeoutSec is the parameter prev; the registry query result
is the parameter query, none when the query failed. -/
def xdpGenericRegistryUpdate (_prev : Nat) (query : Option Nat) : Nat :=
  match query with
  | some value => value
  | none => DELAY_DETACH_DEFAULT_TIMEOUT_SEC

/-- C10: the registry update sets the debounce timeout to the queried value on
success and resets it to the built-in default of 300 seconds on failure; the
result never depends on the previously configured value. -/
theorem c10_registry_update (prev prev2 : Nat) (query : Option Nat) :
    (∀ v, query = some v → xdpGenericRegistryUpdate prev query = v) ∧
    (query = none → xdpGenericRegistryUpdate prev query = 300) ∧
    xdpGenericRegistryUpdate prev query = xdpGenericRegistryUpdate prev2 query := by
  refine ⟨?_, ?_, rfl⟩
  · intro v hv
    rw [hv]
    rfl
  · intro hq
    rw [hq]
    rfl

/-- Witness for c10_registry_update at a failing query. -/
theorem c10_registry_update_witness :
    (∀ v, (none : Option Nat) = some v → xdpGenericRegistryUpdate 7 none = v) ∧
    ((none : Option Nat) = none → xdpGenericRegistryUpdate 7 none = 300) ∧
    xdpGenericRegistryUpdate 7 none = xdpGenericRegistryUpdate 9 none :=
  c10_registry_update 7 9 none

/-- DELAY_DETACH_RX (generic.c:10): the low pointer bit encoding the RX slot. -/
def DELAY_DETACH_RX : Nat := 0x1

/-- The ULONG_PTR complement of DELAY_DETACH_RX on the 64-bit target. -/
def NOT_DELAY_DETACH_RX : Nat := 2 ^ 64 - 2

/-- XdpGenericPackContext (generic.c:139): encode the slot in the low bit of
the interface pointer, the pointer modelled as a natural number below 2^64. -/
def xdpGenericPackContext (generic : Nat) (isRx : Bool) : Nat :=
  generic ||| (if isRx then DELAY_DETACH_RX else 0)

/-- XdpGenericUnpackContext (generic.c:152): recover the interface pointer and
the slot from the packed context. -/
def xdpGenericUnpackContext (packed : Nat) : Nat × Bool :=
  (packed &&& NOT_DELAY_DETACH_RX, decide (packed &&& DELAY_DETACH_RX ≠ 0))

/-- The 64-bit mask clearing the low bit has exactly bits one to sixty-three
set. -/
theorem testBit_not_delay_detach_rx (i : Nat) :
    Nat.testBit NOT_DELAY_DETACH_RX i = (decide (0 < i) && decide (i < 64)) := by
  have h2 : NOT_DELAY_DETACH_RX = 2 * (2 ^ 63 - 1) := by
    unfold NOT_DELAY_DETACH_RX
    norm_num
  cases i with
  | zero =>
    rw [h2, Nat.testBit_zero]
    simp [Nat.mul_mod_right]
  | succ j =>
    rw [h2, Nat.testBit_succ]
    have hdiv : 2 * (2 ^ 63 - 1) / 2 = 2 ^ 63 - 1 := by omega
    rw [hdiv, Nat.testBit_two_pow_sub_one]
    rw [show (decide (0 < j + 1) && decide (j + 1 < 64)) =
        decide (0 < j + 1 ∧ j + 1 < 64) by simp]
    exact decide_eq_decide.mpr (by omega)

/-- C9: for an interface pointer with its low bit clear, unpacking the packed
worker context yields exactly the original interface pointer and slot. -/
theorem c9_pack_unpack_roundtrip (g : Nat) (isRx : Bool)
    (halign : g % 2 = 0) (hsize : g < 2 ^ 64) :
    xdpGenericUnpackContext (xdpGenericPackContext g isRx) = (g, isRx) := by
  unfold xdpGenericUnpackContext xdpGenericPackContext
  have hbit0 : Nat.testBit g 0 = false := by
    rw [Nat.testBit_zero]
    simp [halign]
  have hlowbit : ∀ b : Nat, b ≤ 1 →
      (g ||| b) &&& NOT_DELAY_DETACH_RX = g := by
    intro b hb
    apply Nat.eq_of_testBit_eq
    intro i
    rw [Nat.testBit_land, Nat.testBit_lor, testBit_not_delay_detach_rx]
    rcases Nat.eq_zero_or_pos i with hi | hi
    · subst hi
      simp [hbit0]
    · rcases Nat.lt_or_ge i 64 with hlt | hge
      · have hbi : Nat.testBit b i = false := by
          apply Nat.testBit_lt_two_pow
          have h2i : 2 ≤ 2 ^ i := by
            calc 2 = 2 ^ 1 := by norm_num
              _ ≤ 2 ^ i := Nat.pow_le_pow_right (by omega) hi
          omega
        simp [hbi, hi, hlt]
      · have hgi : Nat.testBit g i = false := by
          apply Nat.testBit_lt_two_pow
          calc g < 2 ^ 64 := hsize
            _ ≤ 2 ^ i := Nat.pow_le_pow_right (by omega) hge
        have h64 : ¬i < 64 := by omega
        simp [hgi, h64]
  cases isRx with
  | false =>
    rw [if_neg (by decide : ¬(false = true)), Nat.or_zero]
    have hmask : g &&& NOT_DELAY_DETACH_RX = g := by
      have h0 := hlowbit 0 (by omega)
      rwa [Nat.or_zero] at h0
    have hand1 : g &&& DELAY_DETACH_RX = 0 := by
      unfold DELAY_DETACH_RX
      rw [Nat.and_one_is_mod, halign]
    rw [hmask, hand1]
    simp
  | true =>
    rw [if_pos rfl]
    rw [hlowbit DELAY_DETACH_RX (by unfold DELAY_DETACH_RX; omega)]
    have hand1 : (g ||| DELAY_DETACH_RX) &&& DELAY_DETACH_RX = 1 := by
      unfold DELAY_DETACH_RX
      rw [Nat.and_one_is_mod]
      have hb0 : Nat.testBit (g ||| 1) 0 = true := by
        rw [Nat.testBit_lor, hbit0]
        simp
      rw [Nat.testBit_zero] at hb0
      exact of_decide_eq_true hb0
    rw [hand1]
    simp

/-- Witness for c9_pack_unpack_roundtrip at an aligned pointer and the RX
slot. -/
theorem c9_pack_unpack_roundtrip_witness :
    4096 % 2 = 0 ∧ 4096 < 2 ^ 64 ∧
    xdpGenericUnpackContext (xdpGenericPackContext 4096 true) = (4096, true) :=
  ⟨by decide, by decide, c9_pack_unpack_roundtrip 4096 true (by decide) (by decide)⟩

/-- Interface-level state for detach: the object state, the removal event, the
interface-directory registration, and the XDPIF interface handle, the handles
modelled as presence flags. -/
structure GenericState where
  obj : ObjState
  interfaceRemovedEvent : Bool
  registration : Bool
  xdpIfInterfaceHandle : Bool
  deriving DecidableEq, Repr

/-- Observable actions of XdpGenericDetachInterface, in program order. -/
inductive DetachAction
  | removeInterfacesAndWaitRemoved
  | setInterfaceRemovedEvent
  | cleanupInterface
  | dereferenceSelf
  | waitCleanupEvent
  deriving DecidableEq, Repr

/-- XdpGenericCleanupInterface (generic.c:417): deregister from the interface
directory when a registration exists. -/
def xdpGenericCleanupInterface (s : GenericState) : GenericState :=
  if s.registration then { s with registration := false } else s

/-- XdpGenericDetachInterface (generic.c:507): when attach completed, remove
the XDPIF interface and wait for the removal event, which the external
RemoveInterfaceComplete callback (generic.c:431) sets before the wait returns;
otherwise set the removal event immediately.  Either way, then deregister
locally, drop the self-held object reference, and wait for the cleanup
event. -/
def xdpGenericDetachInterface (s : GenericState) :
    List DetachAction × GenericState :=
  if s.xdpIfInterfaceHandle then
    let s1 := { s with interfaceRemovedEvent := true, xdpIfInterfaceHandle := false }
    let s2 := xdpGenericCleanupInterface s1
    let s3 := { s2 with obj := xdpGenericDereference s2.obj }
    ([DetachAction.removeInterfacesAndWaitRemoved, DetachAction.cleanupInterface,
      DetachAction.dereferenceSelf, DetachAction.waitCleanupEvent], s3)
  else
    let s1 := { s with interfaceRemovedEvent := true }
    let s2 := xdpGenericCleanupInterface s1
    let s3 := { s2 with obj := xdpGenericDereference s2.obj }
    ([DetachAction.setInterfaceRemovedEvent, DetachAction.cleanupInterface,
      DetachAction.dereferenceSelf, DetachAction.waitCleanupEvent], s3)

/-- C7: detach sets the removal event immediately exactly when no XDPIF
registration exists; in either case it then deregisters locally, drops the
self-held object reference, and blocks on the cleanup event as its final
action; and the object-dereference operation sets the cleanup event if and
only if its decrement brings the object reference count to zero, never while
the count stays positive. -/
theorem c7_detach_interface (s : GenericState) (o : ObjState) :
    (s.xdpIfInterfaceHandle = false →
      (xdpGenericDetachInterface s).1.head? =
        some DetachAction.setInterfaceRemovedEvent) ∧
    (s.xdpIfInterfaceHandle = true →
      (xdpGenericDetachInterface s).1.head? =
        some DetachAction.removeInterfacesAndWaitRemoved) ∧
    (xdpGenericDetachInterface s).2.interfaceRemovedEvent = true ∧
    (xdpGenericDetachInterface s).1.drop 1 =
      [DetachAction.cleanupInterface, DetachAction.dereferenceSelf,
       DetachAction.waitCleanupEvent] ∧
    (xdpGenericDetachInterface s).2.registration = false ∧
    (xdpGenericDetachInterface s).2.obj = xdpGenericDereference s.obj ∧
    ((xdpGenericDereference o).cleanupEvent = true ↔
      o.referenceCount - 1 = 0 ∨ o.cleanupEvent = true) ∧
    (0 < o.referenceCount - 1 →
      (xdpGenericDereference o).cleanupEvent = o.cleanupEvent) := by
  have hderef : ((xdpGenericDereference o).cleanupEvent = true ↔
      o.referenceCount - 1 = 0 ∨ o.cleanupEvent = true) ∧
      (0 < o.referenceCount - 1 →
        (xdpGenericDereference o).cleanupEvent = o.cleanupEvent) := by
    unfold xdpGenericDereference
    by_cases h0 : o.referenceCount - 1 = 0
    · rw [if_pos h0]
      exact ⟨by simp [h0], fun hc => absurd h0 (by omega)⟩
    · rw [if_neg h0]
      exact ⟨by simp [h0], fun _ => rfl⟩
  unfold xdpGenericDetachInterface xdpGenericCleanupInterface
  cases hh : s.xdpIfInterfaceHandle <;>
    by_cases hreg : s.registration <;>
      simp [hh, hreg, hderef.1] <;>
        exact fun h => hderef.2 (by omega)

/-- Witness for c7_detach_interface at a never-attached interface whose
self-reference is the last one. -/
theorem c7_detach_interface_witness :
    (({ obj := objSample 1, interfaceRemovedEvent := false, registration := true,
        xdpIfInterfaceHandle := false } : GenericState).xdpIfInterfaceHandle = false →
      (xdpGenericDetachInterface
        { obj := objSample 1, interfaceRemovedEvent := false, registration := true,
          xdpIfInterfaceHandle := false }).1.head? =
        some DetachAction.setInterfaceRemovedEvent) ∧
    (({ obj := objSample 1, interfaceRemovedEvent := false, registration := true,
        xdpIfInterfaceHandle := false } : GenericState).xdpIfInterfaceHandle = true →
      (xdpGenericDetachInterface
        { obj := objSample 1, interfaceRemovedEvent := false, registration := true,
          xdpIfInterfaceHandle := false }).1.head? =
        some DetachAction.removeInterfacesAndWaitRemoved) ∧
    (xdpGenericDetachInterface
      { obj := objSample 1, interfaceRemovedEvent := false, registration := true,
        xdpIfInterfaceHandle := false }).2.interfaceRemovedEvent = true ∧
    (xdpGenericDetachInterface
      { obj := objSample 1, interfaceRemovedEvent := false, registration := true,
        xdpIfInterfaceHandle := false }).1.drop 1 =
      [DetachAction.cleanupInterface, DetachAction.dereferenceSelf,
       DetachAction.waitCleanupEvent] ∧
    (xdpGenericDetachInterface
      { obj := objSample 1, interfaceRemovedEvent := false, registration := true,
        xdpIfInterfaceHandle := false }).2.registration = false ∧
    (xdpGenericDetachInterface
      { obj := objSample 1, interfaceRemovedEvent := false, registration := true,
        xdpIfInterfaceHandle := false }).2.obj =
      xdpGenericDereference (objSample 1) ∧
    ((xdpGenericDereference (objSample 1)).cleanupEvent = true ↔
      (objSample 1).referenceCount - 1 = 0 ∨ (objSample 1).cleanupEvent = true) ∧
    (0 < (objSample 1).referenceCount - 1 →
      (xdpGenericDereference (objSample 1)).cleanupEvent =
        (objSample 1).cleanupEvent) :=
  c7_detach_interface
    { obj := objSample 1, interfaceRemovedEvent := false, registration := true,
      xdpIfInterfaceHandle := false }
    (objSample 1)

/-- One slot-protocol event: a reference, a dereference (with the clock value
and the worker-creation outcome), or a delay-worker finalize. -/
inductive SlotEvent
  | ref
  | deref (now : Nat) (workerOk : Bool)
  | finalize
  deriving DecidableEq, Repr

/-- Instrumented protocol state: the slot, the interface object, the number of
spawned-but-unfinished delay workers, and ghost counters of references issued,
dereferences initiated, and dereference decrements finalized. -/
structure TraceState where
  dp : DatapathState
  obj : ObjState
  pending : Nat
  refsIssued : Nat
  derefsInitiated : Nat
  derefsFinalized : Nat
  deriving DecidableEq, Repr

/-- One protocol step, built from the embedded operations; a finalize is only
generated by a previously spawned worker, so with none pending it yields
none. -/
def slotStep (s : TraceState) : SlotEvent → Option TraceState
  | SlotEvent.ref =>
    match xdpGenericReferenceDatapath s.dp s.obj with
    | some r =>
      some { s with dp := r.dp, obj := r.obj, refsIssued := s.refsIssued + 1 }
    | none => none
  | SlotEvent.deref now workerOk =>
    match xdpGenericDereferenceDatapath s.dp s.obj now workerOk with
    | some r =>
      if r.spawned then
        some { s with dp := r.dp, obj := r.obj, pending := s.pending + 1, derefsInitiated := s.derefsInitiated + 1 }
      else
        some { s with dp := r.dp, obj := r.obj, derefsInitiated := s.derefsInitiated + 1, derefsFinalized := s.derefsFinalized + 1 }
    | none => none
  | SlotEvent.finalize =>
    if s.pending = 0 then none
    else
      match xdpGenericDelayDereferenceFinalize s.dp s.obj with
      | some r =>
        some { s with dp := r.dp, obj := r.obj, pending := s.pending - 1, derefsFinalized := s.derefsFinalized + 1 }
      | none => none

/-- Run a sequence of protocol events. -/
def slotRun (s : TraceState) : List SlotEvent → Option TraceState
  | [] => some s
  | e :: rest =>
    match slotStep s e with
    | some s1 => slotRun s1 rest
    | none => none

/-- Admissibility of an event in a state: a dereference must be preceded by a
matching reference (so strictly fewer initiated dereferences than issued
references) and a finalize must come from a previously spawned worker. -/
def admissibleEvent (s : TraceState) : SlotEvent → Bool
  | SlotEvent.ref => true
  | SlotEvent.deref _ _ => decide (s.derefsInitiated < s.refsIssued)
  | SlotEvent.finalize => decide (0 < s.pending)

/-- Admissibility of an event sequence from a state. -/
def admissibleFrom (s : TraceState) : List SlotEvent → Bool
  | [] => true
  | e :: rest =>
    admissibleEvent s e &&
      match slotStep s e with
      | some s1 => admissibleFrom s1 rest
      | none => true

/-- The protocol invariant: the slot reference count equals references issued
minus decrements finalized, initiated dereferences split into finalized
decrements plus pending worker decrements, and initiations never exceed
references. -/
def SlotInv (s : TraceState) : Prop :=
  s.dp.referenceCount = (s.refsIssued : Int) - (s.derefsFinalized : Int) ∧
  s.derefsInitiated = s.derefsFinalized + s.pending ∧
  s.derefsInitiated ≤ s.refsIssued

/-- An admissible event taken in a state satisfying the invariant succeeds (no
FRE_ASSERT fires) and preserves the invariant. -/
theorem slotStep_preserves (s : TraceState) (e : SlotEvent)
    (hinv : SlotInv s) (hadm : admissibleEvent s e = true) :
    ∃ s1, slotStep s e = some s1 ∧ SlotInv s1 := by
  obtain ⟨h1, h2, h3⟩ := hinv
  have hrc : 0 ≤ s.dp.referenceCount := by omega
  cases e with
  | ref =>
    simp only [slotStep]
    unfold xdpGenericReferenceDatapath
    rw [if_pos hrc]
    by_cases h0 : s.dp.referenceCount = 0
    · rw [if_pos h0]
      refine ⟨_, rfl, ?_, ?_, ?_⟩ <;> simp <;> omega
    · rw [if_neg h0]
      refine ⟨_, rfl, ?_, ?_, ?_⟩ <;> simp <;> omega
  | deref now workerOk =>
    simp only [admissibleEvent] at hadm
    have hlt : s.derefsInitiated < s.refsIssued := of_decide_eq_true hadm
    have hpos : 0 < s.dp.referenceCount := by omega
    simp only [slotStep]
    rw [dereferenceDatapath_cases]
    by_cases hc : s.dp.referenceCount = 1 ∧ workerOk = true
    · rw [if_pos hc]
      refine ⟨_, rfl, ?_, ?_, ?_⟩ <;> simp <;> omega
    · rw [if_neg hc, if_pos hpos]
      refine ⟨_, rfl, ?_, ?_, ?_⟩ <;> simp <;> omega
  | finalize =>
    simp only [admissibleEvent] at hadm
    have hp : 0 < s.pending := of_decide_eq_true hadm
    have hpos : 0 < s.dp.referenceCount := by omega
    simp only [slotStep]
    rw [if_neg (by omega : ¬s.pending = 0)]
    unfold xdpGenericDelayDereferenceFinalize
    rw [if_pos hpos]
    by_cases h0 : s.dp.referenceCount - 1 = 0
    · rw [if_pos h0]
      refine ⟨_, rfl, ?_, ?_, ?_⟩ <;> simp <;> omega
    · rw [if_neg h0]
      refine ⟨_, rfl, ?_, ?_, ?_⟩ <;> simp <;> omega

/-- An admissible event sequence from an invariant state runs to completion
with the invariant preserved. -/
theorem slotRun_preserves (tr : List SlotEvent) :
    ∀ s, SlotInv s → admissibleFrom s tr = true →
      ∃ s1, slotRun s tr = some s1 ∧ SlotInv s1 := by
  induction tr with
  | nil => exact fun s hinv _ => ⟨s, rfl, hinv⟩
  | cons e rest ih =>
    intro s hinv hadm
    simp only [admissibleFrom] at hadm
    have he : admissibleEvent s e = true := by
      cases hae : admissibleEvent s e
      · rw [hae] at hadm
        simp at hadm
      · rfl
    obtain ⟨s1, hs1, hinv1⟩ := slotStep_preserves s e hinv he
    rw [he, hs1] at hadm
    simp only [Bool.true_and] at hadm
    obtain ⟨s2, hs2, hinv2⟩ := ih s1 hinv1 hadm
    refine ⟨s2, ?_, hinv2⟩
    simp only [slotRun]
    rw [hs1]
    exact hs2

/-- Admissibility of a concatenation restricts to the first part. -/
theorem admissibleFrom_append (pre suf : List SlotEvent) :
    ∀ s, admissibleFrom s (pre ++ suf) = true → admissibleFrom s pre = true := by
  induction pre with
  | nil => exact fun s _ => rfl
  | cons e rest ih =>
    intro s hadm
    rw [List.cons_append] at hadm
    simp only [admissibleFrom] at hadm ⊢
    cases hae : admissibleEvent s e
    · rw [hae] at hadm
      simp at hadm
    · rw [hae] at hadm
      simp only [Bool.true_and] at hadm ⊢
      cases hs : slotStep s e with
      | none => rfl
      | some s1 =>
        rw [hs] at hadm
        exact ih _ hadm

/-- The initial slot-protocol state, as established at attach
(generic.c:461-467): slot count zero, object count one, no worker pending. -/
def initTraceState : TraceState :=
  { dp := { referenceCount := 0, inserted := false, readyEvent := false, lastDereferenceTimestamp := 0 },
    obj := { referenceCount := 1, cleanupEvent := false },
    pending := 0, refsIssued := 0, derefsInitiated := 0, derefsFinalized := 0 }

/-- C8: along every admissible event sequence (each dereference preceded by a
matching reference, each finalize by its spawned worker), every prefix runs
without any FRE_ASSERT firing, and at each point the slot reference count is
nonnegative and equals references issued minus dereference decrements
finalized. -/
theorem c8_refcount_invariant (tr pre suf : List SlotEvent)
    (hsplit : tr = pre ++ suf)
    (hadm : admissibleFrom initTraceState tr = true) :
    ∃ s1, slotRun initTraceState pre = some s1 ∧
      s1.dp.referenceCount =
        (s1.refsIssued : Int) - (s1.derefsFinalized : Int) ∧
      0 ≤ s1.dp.referenceCount := by
  subst hsplit
  have hpre := admissibleFrom_append pre suf initTraceState hadm
  have hinit : SlotInv initTraceState := ⟨by decide, by decide, by decide⟩
  obtain ⟨s1, hs1, hinv1⟩ := slotRun_preserves pre initTraceState hinit hpre
  exact ⟨s1, hs1, hinv1.1, by obtain ⟨a, b, c⟩ := hinv1; omega⟩

/-- Witness for c8_refcount_invariant on a five-event trace with a synchronous
and a worker-carried dereference. -/
theorem c8_refcount_invariant_witness :
    ([SlotEvent.ref, SlotEvent.ref, SlotEvent.deref 3 true,
      SlotEvent.deref 4 true, SlotEvent.finalize] : List SlotEvent) =
      [SlotEvent.ref, SlotEvent.ref, SlotEvent.deref 3 true] ++
        [SlotEvent.deref 4 true, SlotEvent.finalize] ∧
    admissibleFrom initTraceState
      [SlotEvent.ref, SlotEvent.ref, SlotEvent.deref 3 true,
       SlotEvent.deref 4 true, SlotEvent.finalize] = true ∧
    ∃ s1, slotRun initTraceState
        [SlotEvent.ref, SlotEvent.ref, SlotEvent.deref 3 true] = some s1 ∧
      s1.dp.referenceCount =
        (s1.refsIssued : Int) - (s1.derefsFinalized : Int) ∧
      0 ≤ s1.dp.referenceCount :=
  ⟨by decide, by decide,
   c8_refcount_invariant
     [SlotEvent.ref, SlotEvent.ref, SlotEvent.deref 3 true,
      SlotEvent.deref 4 true, SlotEvent.finalize]
     [SlotEvent.ref, SlotEvent.ref, SlotEvent.deref 3 true]
     [SlotEvent.deref 4 true, SlotEvent.finalize]
     (by decide) (by decide)⟩

end XdpLwfGeneric
